import Mathlib

/-!
Verification of the ultimate-notion property-value model.

Shallow embedding of the property-value type system (`obj_api/props.py`),
the rich-text and user wrappers (`objects.py`) and the session glue
(`session.py`) of the `ultimate-notion` repository, with theorems checking
the specification's claims against it.  Modules of the repository that are
not shipped under `src/` (`obj_api/objects.py`, `obj_api/core.py`,
`schema.py`) are modelled from the spec where a claim needs them; each such
definition says so in its doc comment.
-/

namespace UNotion

/-- A calendar instant (a `datetime` or `date` on the wire), modelled
opaquely by its ISO-8601 rendering. -/
structure Instant where
  iso : String
deriving DecidableEq, Repr

/-- Modelled from the spec: `objects.DateRange` (`obj_api/objects.py`, not
under `src/`), the date payload used by `Date`, `DateFormula` and
`RollupDate` in `obj_api/props.py`: a start instant and an optional end. -/
structure DateRange where
  start : Instant
  «end» : Option Instant
deriving DecidableEq, Repr

/-- Codomain of the date-typed `value` projections in `props.py`, Python's
`None | datetime | date | tuple[datetime | date, datetime | date]`. -/
inductive DateValue where
  | absent
  | single (start : Instant)
  | pair (start «end» : Instant)
deriving DecidableEq, Repr

/-- Model of `DateFormula` (`props.py` lines 147-150): a date-typed formula
result holding an optional `DateRange`. -/
structure DateFormula where
  date : Option DateRange
deriving DecidableEq, Repr

/-- Model of `DateFormula.value` (`props.py` lines 152-159): `None` when
`date` is absent, the start when `end` is absent, else `(start, end)`. -/
def DateFormula.value (f : DateFormula) : DateValue :=
  match f.date with
  | Option.none => DateValue.absent
  | Option.some d =>
    match d.«end» with
    | Option.none => DateValue.single d.start
    | Option.some e => DateValue.pair d.start e

/-- Model of `RollupDate` (`props.py` lines 212-215): a date-typed rollup;
`RollupObject` carries an optional aggregation `function` (the `Function`
enum of `obj_api/schema.py`, modelled as its string value). -/
structure RollupDate where
  function : Option String
  date : Option DateRange
deriving DecidableEq, Repr

/-- Model of `RollupDate.value` (`props.py` lines 217-224), the same
projection as `DateFormula.value`. -/
def RollupDate.value (r : RollupDate) : DateValue :=
  match r.date with
  | Option.none => DateValue.absent
  | Option.some d =>
    match d.«end» with
    | Option.none => DateValue.single d.start
    | Option.some e => DateValue.pair d.start e

/-! Rich text (`objects.py`). -/

/-- Modelled from the spec: `objects.RichTextObject` (`obj_api/objects.py`,
not under `src/`), an inline span; only its `plain_text` rendering matters
to the claims below. -/
structure RichTextObject where
  plain_text : String
deriving DecidableEq, Repr

/-- Python truthiness of a `RichTextObject`: pydantic models define no
`__bool__` or `__len__`, so every instance is truthy.  This models the
`if text` filter in `RichText.to_plain_text`. -/
def RichTextObject.truthy (_ : RichTextObject) : Bool := true

/-- Model of `RichText` (`objects.py` line 44), identified with the list of
backing `RichTextObject` spans (its `obj_ref` projection). -/
abbrev RichText := List RichTextObject

/-- Model of Python's `''.join`: concatenation of a list of strings. -/
def joinStrings : List String → String
  | [] => ""
  | s :: rest => s ++ joinStrings rest

/-- Model of `RichText.to_plain_text` (`objects.py` lines 74-78): `None` for
an empty list (`if not self`), else `''.join(text.plain_text for text in
self.obj_ref if text)`. -/
def RichText.to_plain_text (rt : RichText) : Option String :=
  if rt.isEmpty then Option.none
  else Option.some (joinStrings ((rt.filter RichTextObject.truthy).map RichTextObject.plain_text))

/-- The spec's wording of the plain-text projection, for comparison with the
code's `RichText.to_plain_text`: `None` for an empty sequence, else the
in-order concatenation of each span's rendering, skipping any span whose
rendering is falsy (the empty string). -/
def toPlainTextSpec (rt : RichText) : Option String :=
  if rt.isEmpty then Option.none
  else Option.some (joinStrings ((rt.map RichTextObject.plain_text).filter (fun s => s != "")))

/-- Model of `RichText.__str__` (`objects.py` lines 80-82): the plain text
when truthy (a Python string is truthy iff non-empty), else `''`. -/
def RichText.str (rt : RichText) : String :=
  match RichText.to_plain_text rt with
  | Option.none => ""
  | Option.some s => if s.isEmpty then "" else s

/-- Error raised by unimplemented operations (Python's
`NotImplementedError`). -/
inductive NotImplementedError where
  | notImplemented
deriving DecidableEq, Repr

/-- Model of `RichText.from_markdown` (`objects.py` lines 55-58): declared
but unimplemented, raises `NotImplementedError` on every input. -/
def RichText.from_markdown (_text : String) : Except NotImplementedError RichText :=
  Except.error NotImplementedError.notImplemented

/-- Model of `RichText.to_markdown` (`objects.py` lines 60-63): declared but
unimplemented, raises `NotImplementedError` on every input. -/
def RichText.to_markdown (_rt : RichText) : Except NotImplementedError String :=
  Except.error NotImplementedError.notImplemented

/-! User wrappers (`objects.py`). -/

/-- Modelled from the spec: the `obj_api.objects.User` payload variants
`Person` and `Bot` (`obj_api/objects.py`, not under `src/`).  A person
carries a nested `person` record with an optional email; a bot carries
none. -/
inductive UserObj where
  | person (id : String) (name : Option String) (email : Option String)
  | bot (id : String) (name : Option String)
deriving DecidableEq, Repr

/-- Model of `User.is_person` (`objects.py` lines 110-112): an
`isinstance(self.obj_ref, objs.Person)` check. -/
def User.is_person : UserObj → Bool
  | UserObj.person .. => true
  | UserObj.bot .. => false

/-- Model of `User.is_bot` (`objects.py` lines 114-116): an
`isinstance(self.obj_ref, objs.Bot)` check. -/
def User.is_bot : UserObj → Bool
  | UserObj.bot .. => true
  | UserObj.person .. => false

/-- Model of `User.email` (`objects.py` lines 122-127): the nested person
record's email for a person, `None` for a bot; a total function, so reading
it never raises. -/
def User.email : UserObj → Option String
  | UserObj.person _ _ e => e
  | UserObj.bot _ _ => Option.none

/-! Helper lemmas. -/

/-- Concatenation is unchanged by dropping empty strings. -/
theorem joinStrings_filter_ne_empty (xs : List String) :
    joinStrings (xs.filter (fun s => s != "")) = joinStrings xs := by
  induction xs with
  | nil => rfl
  | cons x rest ih =>
    by_cases hx : x = ""
    · subst hx
      simp [List.filter, joinStrings, ih]
    · have hx' : (x != "") = true := by simp [hx]
      simp [List.filter, hx', joinStrings, ih]

/-! Wire payloads (`obj_api`).

JSON values as the transport hands them over.  Numbers keep the int/float
distinction Python's json layer makes; a float is kept opaquely by its wire
literal.  Arrays and objects use their own list spines so that every
function below is structurally recursive (and so kernel-evaluable). -/

/-- A wire number: an integer or a float, as distinguished by the JSON
reader.  Floats are opaque here; no claim computes with them. -/
inductive NumVal where
  | int (n : Int)
  | float (lit : String)
deriving DecidableEq, Repr

mutual

/-- A JSON value on the wire. -/
inductive Json where
  | null
  | bool (b : Bool)
  | num (v : NumVal)
  | str (s : String)
  | arr (elems : JsonList)
  | obj (fields : JsonFields)

/-- Spine of a JSON array. -/
inductive JsonList where
  | nil
  | cons (hd : Json) (tl : JsonList)

/-- Spine of a JSON object: an ordered list of key-value fields. -/
inductive JsonFields where
  | nil
  | cons (k : String) (v : Json) (tl : JsonFields)

end

/-- Build an object spine from a list of pairs. -/
def JsonFields.ofList : List (String × Json) → JsonFields
  | [] => JsonFields.nil
  | (k, v) :: rest => JsonFields.cons k v (JsonFields.ofList rest)

/-- Build an object from a list of fields. -/
def Json.mkObj (fs : List (String × Json)) : Json :=
  Json.obj (JsonFields.ofList fs)

/-- Build an array spine from a list. -/
def JsonList.ofList : List Json → JsonList
  | [] => JsonList.nil
  | x :: rest => JsonList.cons x (JsonList.ofList rest)

/-- Look a key up in an object's fields (first occurrence). -/
def JsonFields.lookup : JsonFields → String → Option Json
  | JsonFields.nil, _ => Option.none
  | JsonFields.cons k v rest, key => if k = key then Option.some v else JsonFields.lookup rest key

/-- Drop every field with the given key. -/
def JsonFields.erase : JsonFields → String → JsonFields
  | JsonFields.nil, _ => JsonFields.nil
  | JsonFields.cons k v rest, key =>
    if k = key then JsonFields.erase rest key
    else JsonFields.cons k v (JsonFields.erase rest key)

/-- Remove the top-level server-assigned `id` field of a payload. -/
def Json.stripId : Json → Json
  | Json.obj fs => Json.obj (fs.erase "id")
  | j => j

/-- Lexicographic order on character lists by character code, used to sort
object keys (any fixed total order serves the order-independent
comparison). -/
def charsLe : List Char → List Char → Bool
  | [], _ => true
  | _ :: _, [] => false
  | a :: as, b :: bs =>
    if a.toNat < b.toNat then true
    else if b.toNat < a.toNat then false
    else charsLe as bs

/-- Insert a field into a key-sorted field list, keeping it sorted. -/
def JsonFields.insertSorted (k : String) (v : Json) : JsonFields → JsonFields
  | JsonFields.nil => JsonFields.cons k v JsonFields.nil
  | JsonFields.cons k' v' rest =>
    if charsLe k.data k'.data then JsonFields.cons k v (JsonFields.cons k' v' rest)
    else JsonFields.cons k' v' (JsonFields.insertSorted k v rest)

mutual

/-- Normalize a JSON value by sorting every object's fields by key, so that
two payloads compare equal exactly when they agree up to field order. -/
def Json.sortKeys : Json → Json
  | Json.null => Json.null
  | Json.bool b => Json.bool b
  | Json.num v => Json.num v
  | Json.str s => Json.str s
  | Json.arr xs => Json.arr (JsonList.sortKeys xs)
  | Json.obj fs => Json.obj (JsonFields.sortKeys fs)

/-- Normalize every element of an array spine. -/
def JsonList.sortKeys : JsonList → JsonList
  | JsonList.nil => JsonList.nil
  | JsonList.cons x rest => JsonList.cons (Json.sortKeys x) (JsonList.sortKeys rest)

/-- Normalize and key-sort an object spine. -/
def JsonFields.sortKeys : JsonFields → JsonFields
  | JsonFields.nil => JsonFields.nil
  | JsonFields.cons k v rest => JsonFields.insertSorted k (Json.sortKeys v) (JsonFields.sortKeys rest)

end

mutual

/-- Structural equality of JSON values. -/
def Json.beq : Json → Json → Bool
  | Json.null, Json.null => true
  | Json.bool a, Json.bool b => a == b
  | Json.num a, Json.num b => a == b
  | Json.str a, Json.str b => a == b
  | Json.arr a, Json.arr b => JsonList.beq a b
  | Json.obj a, Json.obj b => JsonFields.beq a b
  | _, _ => false

/-- Structural equality of array spines. -/
def JsonList.beq : JsonList → JsonList → Bool
  | JsonList.nil, JsonList.nil => true
  | JsonList.cons x xs, JsonList.cons y ys => Json.beq x y && JsonList.beq xs ys
  | _, _ => false

/-- Structural equality of object spines (order-sensitive; use after
`sortKeys` for order-independent comparison). -/
def JsonFields.beq : JsonFields → JsonFields → Bool
  | JsonFields.nil, JsonFields.nil => true
  | JsonFields.cons k v fs, JsonFields.cons k' v' fs' =>
    k == k' && Json.beq v v' && JsonFields.beq fs fs'
  | _, _ => false

end

/-- Field-order-independent comparison of payloads, ignoring the top-level
server-assigned `id`. -/
def Json.eqModIdAndOrder (a b : Json) : Bool :=
  Json.beq (Json.sortKeys (Json.stripId a)) (Json.sortKeys (Json.stripId b))

/-! The PropertyValue registry (`obj_api/props.py`).

One variant per supported property kind, each holding the optional
server-assigned `id` and the payload field named after its tag.  Payloads
whose own model lives in modules not under `src/` (rich text spans,
select options, users, files, object references) are carried as their raw
wire JSON.  `RollupArray` holds a list of `PropertyValue` (`props.py`
line 230), so the three types are mutually inductive. -/

/-- Model of `FormulaResult` (`props.py` lines 115-169) with its four
variants `StringFormula`, `NumberFormula`, `DateFormula`, `BooleanFormula`
(the date variant is mirrored by the standalone `DateFormula` structure
used for the `value` projection above). -/
inductive FormulaResult where
  | string (string : Option String)
  | number (number : Option NumVal)
  | date (date : Option DateRange)
  | boolean (boolean : Option Bool)
deriving DecidableEq, Repr

mutual

/-- Model of `PropertyValue` (`props.py` lines 15-292): the closed,
tag-dispatched set of variants.  In `verification` the nested record's
`date` field is named `vdate` (the constructor family already uses `date`),
and in `unique_id` the nested `prefix` field is named `idPrefix`. -/
inductive PropertyValue where
  | title (id : Option String) (title : JsonList)
  | rich_text (id : Option String) (rich_text : JsonList)
  | number (id : Option String) (number : Option NumVal)
  | checkbox (id : Option String) (checkbox : Option Bool)
  | date (id : Option String) (date : Option DateRange)
  | status (id : Option String) (status : Option Json)
  | select (id : Option String) (select : Option Json)
  | multi_select (id : Option String) (multi_select : JsonList)
  | people (id : Option String) (people : JsonList)
  | url (id : Option String) (url : Option String)
  | email (id : Option String) (email : Option String)
  | phone_number (id : Option String) (phone_number : Option String)
  | files (id : Option String) (files : JsonList)
  | formula (id : Option String) (formula : Option FormulaResult)
  | relation (id : Option String) (relation : JsonList) (has_more : Bool)
  | rollup (id : Option String) (rollup : Option RollupObject)
  | created_time (id : Option String) (created_time : String)
  | created_by (id : Option String) (created_by : Json)
  | last_edited_time (id : Option String) (last_edited_time : String)
  | last_edited_by (id : Option String) (last_edited_by : Json)
  | unique_id (id : Option String) (number : Int) (idPrefix : Option String)
  | verification (id : Option String) (state : String) (verified_by : Option Json)
      (vdate : Option String)

/-- Model of `RollupObject` (`props.py` lines 190-235): `RollupNumber`,
`RollupDate` and `RollupArray`, each with the optional aggregation
`function` (the `Function` enum as its string value). -/
inductive RollupObject where
  | number (function : Option String) (number : Option NumVal)
  | date (function : Option String) (date : Option DateRange)
  | array (function : Option String) (array : PVList)

/-- Spine of `RollupArray`'s `list[PropertyValue]`. -/
inductive PVList where
  | nil
  | cons (hd : PropertyValue) (tl : PVList)

end

/-- The supported property-kind tags, in declaration order of `props.py`. -/
def supportedTags : List String :=
  ["title", "rich_text", "number", "checkbox", "date", "status", "select",
   "multi_select", "people", "url", "email", "phone_number", "files",
   "formula", "relation", "rollup", "created_time", "created_by",
   "last_edited_time", "last_edited_by", "unique_id", "verification"]

/-! Decoding.  Modelled from the spec: the tag-dispatch machinery lives in
`obj_api/core.py` / `obj_api/objects.py` (`TypedObject`), which are not
under `src/`.  The spec fixes it: dispatch purely on the `type` tag, the
data sits under the field literally named after the tag, an unknown tag is
a hard decode error, absent list-shaped fields decode to empty sequences,
and optional scalar fields default to absence. -/

/-- Read an optional string field value (`None` on the wire is absence;
a wrong type is a decode error). -/
def decodeOptStr : Json → Option (Option String)
  | Json.null => Option.some Option.none
  | Json.str s => Option.some (Option.some s)
  | _ => Option.none

/-- Read an optional boolean field value. -/
def decodeOptBool : Json → Option (Option Bool)
  | Json.null => Option.some Option.none
  | Json.bool b => Option.some (Option.some b)
  | _ => Option.none

/-- Read an optional number field value, keeping the wire's int/float
distinction (`Number.Config.smart_union`, `props.py` lines 46-47: an int is
not coerced to a float). -/
def decodeOptNum : Json → Option (Option NumVal)
  | Json.null => Option.some Option.none
  | Json.num v => Option.some (Option.some v)
  | _ => Option.none

/-- Read an optional select-option-like payload, kept raw (its model,
`SelectOption`, lives in `obj_api/schema.py`, not under `src/`). -/
def decodeOptRawObj : Json → Option (Option Json)
  | Json.null => Option.some Option.none
  | Json.obj fs => Option.some (Option.some (Json.obj fs))
  | _ => Option.none

/-- Read an optional `DateRange`: `null` is absence, else an object with a
required `start` and an optional `end`. -/
def decodeDateRangeOpt : Json → Option (Option DateRange)
  | Json.null => Option.some Option.none
  | Json.obj dfs =>
    match dfs.lookup "start" with
    | Option.some (Json.str s) =>
      match dfs.lookup "end" with
      | Option.none => Option.some (Option.some ⟨⟨s⟩, Option.none⟩)
      | Option.some Json.null => Option.some (Option.some ⟨⟨s⟩, Option.none⟩)
      | Option.some (Json.str e) => Option.some (Option.some ⟨⟨s⟩, Option.some ⟨e⟩⟩)
      | _ => Option.none
    | _ => Option.none
  | _ => Option.none

/-- A field's value, with absence read as `null` (pydantic's default for
the optional fields of `props.py`). -/
def fieldOrNull (fs : JsonFields) (k : String) : Json :=
  match fs.lookup k with
  | Option.some v => v
  | Option.none => Json.null

/-- An optional string field of an object, absent or `null` both reading as
absence. -/
def strField (fs : JsonFields) (k : String) : Option String :=
  match fs.lookup k with
  | Option.some (Json.str s) => Option.some s
  | _ => Option.none

/-- A boolean field of an object with a default (used for `has_more`,
`props.py` line 182). -/
def boolFieldD (fs : JsonFields) (k : String) (d : Bool) : Bool :=
  match fs.lookup k with
  | Option.some (Json.bool b) => b
  | _ => d

/-- Decode a `FormulaResult` object (`props.py` lines 115-169): nested tag
dispatch over string/number/date/boolean. -/
def decodeFormulaResult (ffs : JsonFields) : Option FormulaResult :=
  match ffs.lookup "type" with
  | Option.some (Json.str "string") => (decodeOptStr (fieldOrNull ffs "string")).map FormulaResult.string
  | Option.some (Json.str "number") => (decodeOptNum (fieldOrNull ffs "number")).map FormulaResult.number
  | Option.some (Json.str "date") => (decodeDateRangeOpt (fieldOrNull ffs "date")).map FormulaResult.date
  | Option.some (Json.str "boolean") => (decodeOptBool (fieldOrNull ffs "boolean")).map FormulaResult.boolean
  | _ => Option.none

/-- Decode an `int` field with a default (the `number` of
`UniqueID._NestedData`, `props.py` line 272). -/
def intFieldD (fs : JsonFields) (k : String) (d : Int) : Option Int :=
  match fs.lookup k with
  | Option.none => Option.some d
  | Option.some (Json.num (NumVal.int n)) => Option.some n
  | _ => Option.none

/-- Decode an optional string field (absent and `null` read as absence, a
non-string value is an error). -/
def optStrField (fs : JsonFields) (k : String) : Option (Option String) :=
  match fs.lookup k with
  | Option.none => Option.some Option.none
  | Option.some Json.null => Option.some Option.none
  | Option.some (Json.str s) => Option.some (Option.some s)
  | _ => Option.none

/-- Decode an optional raw-object field (the `verified_by` user of
`Verification._NestedData`, `props.py` line 283). -/
def optRawField (fs : JsonFields) (k : String) : Option (Option Json)
  :=
  match fs.lookup k with
  | Option.none => Option.some Option.none
  | Option.some Json.null => Option.some Option.none
  | Option.some (Json.obj o) => Option.some (Option.some (Json.obj o))
  | _ => Option.none

/-- The variant built when the tag-named field is absent on the wire: each
field of `props.py` takes its declared default (empty list, absence,
`has_more = False`, `UniqueID` zero, `Verification` unverified); the four
always-server-populated variants (`created_time`, `created_by`,
`last_edited_time`, `last_edited_by`) have no default, and an unknown tag
is a decode error. -/
def decodeMissingField (tag : String) (id : Option String) (hasMore : Bool) :
    Option PropertyValue :=
  match tag with
  | "title" => Option.some (PropertyValue.title id JsonList.nil)
  | "rich_text" => Option.some (PropertyValue.rich_text id JsonList.nil)
  | "number" => Option.some (PropertyValue.number id Option.none)
  | "checkbox" => Option.some (PropertyValue.checkbox id Option.none)
  | "date" => Option.some (PropertyValue.date id Option.none)
  | "status" => Option.some (PropertyValue.status id Option.none)
  | "select" => Option.some (PropertyValue.select id Option.none)
  | "multi_select" => Option.some (PropertyValue.multi_select id JsonList.nil)
  | "people" => Option.some (PropertyValue.people id JsonList.nil)
  | "url" => Option.some (PropertyValue.url id Option.none)
  | "email" => Option.some (PropertyValue.email id Option.none)
  | "phone_number" => Option.some (PropertyValue.phone_number id Option.none)
  | "files" => Option.some (PropertyValue.files id JsonList.nil)
  | "formula" => Option.some (PropertyValue.formula id Option.none)
  | "relation" => Option.some (PropertyValue.relation id JsonList.nil hasMore)
  | "rollup" => Option.some (PropertyValue.rollup id Option.none)
  | "unique_id" => Option.some (PropertyValue.unique_id id 0 Option.none)
  | "verification" =>
    Option.some (PropertyValue.verification id "unverified" Option.none Option.none)
  | _ => Option.none

mutual

/-- Decode a wire payload into a `PropertyValue`: read the `type` tag, the
optional server-assigned `id` and the `has_more` sibling, then find the
tag-named field and validate its payload. -/
def Json.decodePV : Json → Option PropertyValue
  | Json.obj fs =>
    match fs.lookup "type" with
    | Option.some (Json.str tag) =>
      decodePVFields tag (strField fs "id") (boolFieldD fs "has_more" false) fs
    | _ => Option.none
  | _ => Option.none

/-- Scan the payload's fields for the one named after the tag; when the
scan ends without finding it, every field keeps its declared default. -/
def decodePVFields (tag : String) (id : Option String) (hasMore : Bool) :
    JsonFields → Option PropertyValue
  | JsonFields.nil => decodeMissingField tag id hasMore
  | JsonFields.cons k v rest =>
    if k = tag then decodeVariantPayload tag id hasMore v
    else decodePVFields tag id hasMore rest

/-- Validate the tag-named field's payload into the variant selected by the
tag (`props.py` lines 29-292); an unknown tag or a payload of the wrong
shape is a decode error. -/
def decodeVariantPayload (tag : String) (id : Option String) (hasMore : Bool)
    (v : Json) : Option PropertyValue :=
  match tag, v with
  | "title", Json.arr xs => Option.some (PropertyValue.title id xs)
  | "rich_text", Json.arr xs => Option.some (PropertyValue.rich_text id xs)
  | "number", w => (decodeOptNum w).map (PropertyValue.number id)
  | "checkbox", w => (decodeOptBool w).map (PropertyValue.checkbox id)
  | "date", w => (decodeDateRangeOpt w).map (PropertyValue.date id)
  | "status", w => (decodeOptRawObj w).map (PropertyValue.status id)
  | "select", w => (decodeOptRawObj w).map (PropertyValue.select id)
  | "multi_select", Json.arr xs => Option.some (PropertyValue.multi_select id xs)
  | "people", Json.arr xs => Option.some (PropertyValue.people id xs)
  | "url", w => (decodeOptStr w).map (PropertyValue.url id)
  | "email", w => (decodeOptStr w).map (PropertyValue.email id)
  | "phone_number", w => (decodeOptStr w).map (PropertyValue.phone_number id)
  | "files", Json.arr xs => Option.some (PropertyValue.files id xs)
  | "formula", Json.null => Option.some (PropertyValue.formula id Option.none)
  | "formula", Json.obj ffs =>
    (decodeFormulaResult ffs).map (fun f => PropertyValue.formula id (Option.some f))
  | "relation", Json.arr xs => Option.some (PropertyValue.relation id xs hasMore)
  | "rollup", Json.null => Option.some (PropertyValue.rollup id Option.none)
  | "rollup", Json.obj rfs =>
    match rfs.lookup "type" with
    | Option.some (Json.str "number") =>
      (decodeOptNum (fieldOrNull rfs "number")).map
        (fun n => PropertyValue.rollup id (Option.some (RollupObject.number (strField rfs "function") n)))
    | Option.some (Json.str "date") =>
      (decodeDateRangeOpt (fieldOrNull rfs "date")).map
        (fun d => PropertyValue.rollup id (Option.some (RollupObject.date (strField rfs "function") d)))
    | Option.some (Json.str "array") =>
      (decodeRollupArrayScan (strField rfs "function") rfs).map
        (fun r => PropertyValue.rollup id (Option.some r))
    | _ => Option.none
  | "created_time", Json.str s => Option.some (PropertyValue.created_time id s)
  | "created_by", Json.obj ufs => Option.some (PropertyValue.created_by id (Json.obj ufs))
  | "last_edited_time", Json.str s => Option.some (PropertyValue.last_edited_time id s)
  | "last_edited_by", Json.obj ufs => Option.some (PropertyValue.last_edited_by id (Json.obj ufs))
  | "unique_id", Json.obj ufs =>
    match intFieldD ufs "number" 0, optStrField ufs "prefix" with
    | Option.some n, Option.some p => Option.some (PropertyValue.unique_id id n p)
    | _, _ => Option.none
  | "verification", Json.obj vfs =>
    match strField vfs "state", optRawField vfs "verified_by", optStrField vfs "date" with
    | Option.some st, Option.some vb, Option.some d =>
      Option.some (PropertyValue.verification id st vb d)
    | _, _, _ => Option.none
  | _, _ => Option.none

/-- Scan a rollup object's fields for its required `array` field
(`props.py` line 230) and decode each contained `PropertyValue`
recursively. -/
def decodeRollupArrayScan (fn : Option String) : JsonFields → Option RollupObject
  | JsonFields.nil => Option.none
  | JsonFields.cons k v rest =>
    if k = "array" then
      match v with
      | Json.arr xs => (decodePVList xs).map (RollupObject.array fn)
      | _ => Option.none
    else decodeRollupArrayScan fn rest

/-- Decode every element of a rollup array. -/
def decodePVList : JsonList → Option PVList
  | JsonList.nil => Option.some PVList.nil
  | JsonList.cons h t =>
    match Json.decodePV h, decodePVList t with
    | Option.some x, Option.some xs => Option.some (PVList.cons x xs)
    | _, _ => Option.none

end

/-! Encoding.  Modelled from the spec: the wire shape is the tag-as-field-
name convention of spec section 6 — a `type` discriminator, the data under
the field literally named after the tag, plus the variant's other declared
fields (`has_more`, the nested records) and the `id` when present. -/

/-- Encode an optional string as its value or `null`. -/
def encodeOptStr : Option String → Json
  | Option.none => Json.null
  | Option.some s => Json.str s

/-- Encode an optional boolean. -/
def encodeOptBool : Option Bool → Json
  | Option.none => Json.null
  | Option.some b => Json.bool b

/-- Encode an optional number. -/
def encodeOptNum : Option NumVal → Json
  | Option.none => Json.null
  | Option.some v => Json.num v

/-- Encode an optional raw payload. -/
def encodeOptRaw : Option Json → Json
  | Option.none => Json.null
  | Option.some j => j

/-- Encode a `DateRange` as its `start`/`end` object. -/
def encodeDateRange (d : DateRange) : Json :=
  Json.mkObj [("start", Json.str d.start.iso), ("end", encodeOptStr (d.«end».map Instant.iso))]

/-- Encode an optional `DateRange`. -/
def encodeDateRangeOpt : Option DateRange → Json
  | Option.none => Json.null
  | Option.some d => encodeDateRange d

/-- Encode a `FormulaResult` with its nested tag. -/
def encodeFormulaResult : FormulaResult → Json
  | FormulaResult.string s => Json.mkObj [("type", Json.str "string"), ("string", encodeOptStr s)]
  | FormulaResult.number n => Json.mkObj [("type", Json.str "number"), ("number", encodeOptNum n)]
  | FormulaResult.date d => Json.mkObj [("type", Json.str "date"), ("date", encodeDateRangeOpt d)]
  | FormulaResult.boolean b => Json.mkObj [("type", Json.str "boolean"), ("boolean", encodeOptBool b)]

/-- The `id` field when the value carries one. -/
def encodeIdFields : Option String → List (String × Json)
  | Option.none => []
  | Option.some s => [("id", Json.str s)]

mutual

/-- Encode a `PropertyValue` back to its wire payload. -/
def PropertyValue.encode : PropertyValue → Json
  | PropertyValue.title id xs =>
    Json.mkObj (encodeIdFields id ++ [("type", Json.str "title"), ("title", Json.arr xs)])
  | PropertyValue.rich_text id xs =>
    Json.mkObj (encodeIdFields id ++ [("type", Json.str "rich_text"), ("rich_text", Json.arr xs)])
  | PropertyValue.number id n =>
    Json.mkObj (encodeIdFields id ++ [("type", Json.str "number"), ("number", encodeOptNum n)])
  | PropertyValue.checkbox id b =>
    Json.mkObj (encodeIdFields id ++ [("type", Json.str "checkbox"), ("checkbox", encodeOptBool b)])
  | PropertyValue.date id d =>
    Json.mkObj (encodeIdFields id ++ [("type", Json.str "date"), ("date", encodeDateRangeOpt d)])
  | PropertyValue.status id s =>
    Json.mkObj (encodeIdFields id ++ [("type", Json.str "status"), ("status", encodeOptRaw s)])
  | PropertyValue.select id s =>
    Json.mkObj (encodeIdFields id ++ [("type", Json.str "select"), ("select", encodeOptRaw s)])
  | PropertyValue.multi_select id xs =>
    Json.mkObj (encodeIdFields id ++ [("type", Json.str "multi_select"), ("multi_select", Json.arr xs)])
  | PropertyValue.people id xs =>
    Json.mkObj (encodeIdFields id ++ [("type", Json.str "people"), ("people", Json.arr xs)])
  | PropertyValue.url id s =>
    Json.mkObj (encodeIdFields id ++ [("type", Json.str "url"), ("url", encodeOptStr s)])
  | PropertyValue.email id s =>
    Json.mkObj (encodeIdFields id ++ [("type", Json.str "email"), ("email", encodeOptStr s)])
  | PropertyValue.phone_number id s =>
    Json.mkObj (encodeIdFields id ++ [("type", Json.str "phone_number"), ("phone_number", encodeOptStr s)])
  | PropertyValue.files id xs =>
    Json.mkObj (encodeIdFields id ++ [("type", Json.str "files"), ("files", Json.arr xs)])
  | PropertyValue.formula id f =>
    Json.mkObj (encodeIdFields id ++ [("type", Json.str "formula"),
      ("formula", match f with
        | Option.none => Json.null
        | Option.some fr => encodeFormulaResult fr)])
  | PropertyValue.relation id xs hm =>
    Json.mkObj (encodeIdFields id ++ [("type", Json.str "relation"), ("relation", Json.arr xs),
      ("has_more", Json.bool hm)])
  | PropertyValue.rollup id r =>
    Json.mkObj (encodeIdFields id ++ [("type", Json.str "rollup"),
      ("rollup", match r with
        | Option.none => Json.null
        | Option.some ro => RollupObject.encode ro)])
  | PropertyValue.created_time id s =>
    Json.mkObj (encodeIdFields id ++ [("type", Json.str "created_time"), ("created_time", Json.str s)])
  | PropertyValue.created_by id u =>
    Json.mkObj (encodeIdFields id ++ [("type", Json.str "created_by"), ("created_by", u)])
  | PropertyValue.last_edited_time id s =>
    Json.mkObj (encodeIdFields id ++ [("type", Json.str "last_edited_time"), ("last_edited_time", Json.str s)])
  | PropertyValue.last_edited_by id u =>
    Json.mkObj (encodeIdFields id ++ [("type", Json.str "last_edited_by"), ("last_edited_by", u)])
  | PropertyValue.unique_id id n p =>
    Json.mkObj (encodeIdFields id ++ [("type", Json.str "unique_id"),
      ("unique_id", Json.mkObj [("number", Json.num (NumVal.int n)), ("prefix", encodeOptStr p)])])
  | PropertyValue.verification id st vb d =>
    Json.mkObj (encodeIdFields id ++ [("type", Json.str "verification"),
      ("verification", Json.mkObj [("state", Json.str st), ("verified_by", encodeOptRaw vb),
        ("date", encodeOptStr d)])])

/-- Encode a `RollupObject` with its nested tag and `function`. -/
def RollupObject.encode : RollupObject → Json
  | RollupObject.number fn n =>
    Json.mkObj [("type", Json.str "number"), ("function", encodeOptStr fn), ("number", encodeOptNum n)]
  | RollupObject.date fn d =>
    Json.mkObj [("type", Json.str "date"), ("function", encodeOptStr fn), ("date", encodeDateRangeOpt d)]
  | RollupObject.array fn xs =>
    Json.mkObj [("type", Json.str "array"), ("function", encodeOptStr fn),
      ("array", Json.arr (PVList.encode xs))]

/-- Encode every element of a rollup array. -/
def PVList.encode : PVList → JsonList
  | PVList.nil => JsonList.nil
  | PVList.cons h t => JsonList.cons (PropertyValue.encode h) (PVList.encode t)

end

/-- A minimal well-formed wire payload for every supported tag, paired with
its tag (the round-trip law of spec section 8). -/
def minimalPayloads : List (String × Json) :=
  [("title", Json.mkObj [("type", Json.str "title"), ("title", Json.arr JsonList.nil)]),
   ("rich_text", Json.mkObj [("type", Json.str "rich_text"), ("rich_text", Json.arr JsonList.nil)]),
   ("number", Json.mkObj [("type", Json.str "number"), ("number", Json.num (NumVal.int 3))]),
   ("checkbox", Json.mkObj [("type", Json.str "checkbox"), ("checkbox", Json.bool true)]),
   ("date", Json.mkObj [("type", Json.str "date"),
      ("date", Json.mkObj [("start", Json.str "2023-01-01"), ("end", Json.null)])]),
   ("status", Json.mkObj [("type", Json.str "status"),
      ("status", Json.mkObj [("id", Json.str "s1"), ("name", Json.str "Done"),
        ("color", Json.str "green")])]),
   ("select", Json.mkObj [("type", Json.str "select"),
      ("select", Json.mkObj [("id", Json.str "s2"), ("name", Json.str "A"),
        ("color", Json.str "blue")])]),
   ("multi_select", Json.mkObj [("type", Json.str "multi_select"),
      ("multi_select", Json.arr JsonList.nil)]),
   ("people", Json.mkObj [("type", Json.str "people"),
      ("people", Json.arr (JsonList.ofList
        [Json.mkObj [("object", Json.str "user"), ("id", Json.str "u1")]]))]),
   ("url", Json.mkObj [("type", Json.str "url"), ("url", Json.str "https://example.com")]),
   ("email", Json.mkObj [("type", Json.str "email"), ("email", Json.str "a@b.co")]),
   ("phone_number", Json.mkObj [("type", Json.str "phone_number"),
      ("phone_number", Json.str "+1-555-0100")]),
   ("files", Json.mkObj [("type", Json.str "files"), ("files", Json.arr JsonList.nil)]),
   ("formula", Json.mkObj [("type", Json.str "formula"),
      ("formula", Json.mkObj [("type", Json.str "number"), ("number", Json.num (NumVal.int 1))])]),
   ("relation", Json.mkObj [("type", Json.str "relation"), ("relation", Json.arr JsonList.nil),
      ("has_more", Json.bool false)]),
   ("rollup", Json.mkObj [("type", Json.str "rollup"),
      ("rollup", Json.mkObj [("type", Json.str "number"), ("function", Json.str "count"),
        ("number", Json.num (NumVal.int 0))])]),
   ("created_time", Json.mkObj [("type", Json.str "created_time"),
      ("created_time", Json.str "2023-01-01T00:00:00.000Z")]),
   ("created_by", Json.mkObj [("type", Json.str "created_by"),
      ("created_by", Json.mkObj [("object", Json.str "user"), ("id", Json.str "u2")])]),
   ("last_edited_time", Json.mkObj [("type", Json.str "last_edited_time"),
      ("last_edited_time", Json.str "2023-02-01T00:00:00.000Z")]),
   ("last_edited_by", Json.mkObj [("type", Json.str "last_edited_by"),
      ("last_edited_by", Json.mkObj [("object", Json.str "user"), ("id", Json.str "u3")])]),
   ("unique_id", Json.mkObj [("type", Json.str "unique_id"),
      ("unique_id", Json.mkObj [("number", Json.num (NumVal.int 7)), ("prefix", Json.str "PRE")])]),
   ("verification", Json.mkObj [("type", Json.str "verification"),
      ("verification", Json.mkObj [("state", Json.str "verified"),
        ("verified_by", Json.mkObj [("object", Json.str "user"), ("id", Json.str "u4")]),
        ("date", Json.null)])])]

/-- Decode-then-encode for one payload, compared field-order-independently
and modulo the server-assigned `id`. -/
def roundTrips (p : Json) : Bool :=
  match Json.decodePV p with
  | Option.some v => Json.eqModIdAndOrder (PropertyValue.encode v) p
  | Option.none => false

/-- The wire payload of a number property carrying the integer `n`. -/
def numberPayload (n : Int) : Json :=
  Json.mkObj [("type", Json.str "number"), ("number", Json.num (NumVal.int n))]

/-! Building (`props.py` `build` methods). -/

/-- Model of `PropertyValue.build` (`props.py` lines 20-26):
`cls(**{cls.type: value})` — construct the variant with its tag-named field
set to the given value; the value goes through the same per-variant
validation as that field's wire payload, there is no `id`, and every other
field keeps its default. -/
def PropertyValue.build (tag : String) (v : Json) : Option PropertyValue :=
  decodeVariantPayload tag Option.none false v

/-- Model of `Date.build` (`props.py` lines 61-64): build the date property
from native start/end values by wrapping them in a `DateRange`. -/
def Date.build (start : Instant) («end» : Option Instant) : PropertyValue :=
  PropertyValue.date Option.none (Option.some ⟨start, «end»⟩)

/-- Modelled from the spec: a page as `Relation.build` consumes it — an
identity-bearing entity; the `title` field stands for all of its
non-identity data. -/
structure Page where
  id : String
  title : String
deriving DecidableEq, Repr

/-- Modelled from the spec: `objects.ObjectReference[page]`
(`obj_api/objects.py`, not under `src/`) — composing a reference keeps only
the target's id. -/
def ObjectReference.ofPage (p : Page) : Json :=
  Json.mkObj [("id", Json.str p.id)]

/-- Model of `Relation.build` (`props.py` lines 184-187): the relation
property whose payload is the pages' object references. -/
def Relation.build (pages : List Page) : PropertyValue :=
  PropertyValue.relation Option.none (JsonList.ofList (pages.map ObjectReference.ofPage)) false

/-! Session lifecycle (`session.py`). -/

/-- Errors `Session.__init__` can raise before any network activity: the
missing-token `RuntimeError` (lines 60-65) and the second-session
`ValueError` of `_initialize_once` (lines 73-80). -/
inductive SessionInitError where
  | noAuthToken
  | multipleSessions
deriving DecidableEq, Repr

/-- Error of `Session.get_active` when no session is active (lines 82-90). -/
inductive GetActiveError where
  | noActiveSession
deriving DecidableEq, Repr

/-- Model of `Session._initialize_once` (`session.py` lines 73-80): under
the class lock, a different live active session is fatal; otherwise the
instance becomes the active session.  Sessions are identified by an
instance token; `is not` is token inequality. -/
def initializeOnce (active : Option Nat) (inst : Nat) :
    Except SessionInitError (Option Nat) :=
  match active with
  | Option.some s =>
    if s ≠ inst then Except.error SessionInitError.multipleSessions
    else Except.ok (Option.some inst)
  | Option.none => Except.ok (Option.some inst)

/-- Model of `Session.get_active` (`session.py` lines 82-90): the active
session or an error. -/
def getActive (active : Option Nat) : Except GetActiveError Nat :=
  match active with
  | Option.some s => Except.ok s
  | Option.none => Except.error GetActiveError.noActiveSession

/-- Model of `Session.__init__` (`session.py` lines 53-71) as a state
transition: resolve the token (explicit argument, else the environment
variable, else fatal), register through `_initialize_once`, and only then
construct the network client.  The second component counts the
network-capable steps performed (client construction and later): an error
outcome always reports zero of them. -/
def sessionInit (active : Option Nat) (inst : Nat) (auth envToken : Option String) :
    Except SessionInitError (Option Nat) × Nat :=
  match auth, envToken with
  | Option.none, Option.none => (Except.error SessionInitError.noAuthToken, 0)
  | _, _ =>
    match initializeOnce active inst with
    | Except.error e => (Except.error e, 0)
    | Except.ok st => (Except.ok st, 1)

/-! Database creation (`session.py` `create_db`). -/

/-- A declared schema column's property type: a relation column with an
optional target (absent while the peer database does not yet exist), or
any other property type, by kind. -/
inductive PropType where
  | relation (target : Option Nat)
  | other (kind : String)
deriving DecidableEq, Repr

/-- The columns `create_db` drops from the creation payload: relation
columns lacking a target schema (`isinstance(prop_type, Relation) and not
prop_type.schema`, `session.py` line 135). -/
def PropType.isUntargetedRelation : PropType → Bool
  | PropType.relation Option.none => true
  | _ => false

/-- Model of the payload filter in `Session.create_db` (`session.py` lines
132-136): keep every column except untargeted relation columns. -/
def schemaNoBackrels (schema : List (String × PropType)) : List (String × PropType) :=
  schema.filter (fun nt => !nt.2.isUntargetedRelation)

/-- Completion of one column: a deferred (untargeted) relation column
receives the now-known peer database id; every other column is untouched. -/
def completeCol (peerDbId : Nat) : String × PropType → String × PropType
  | (n, PropType.relation Option.none) => (n, PropType.relation (Option.some peerDbId))
  | other => other

/-- Modelled from the spec: `PageSchema._init_bwd_rels` (`schema.py`, not
under `src/`) — after creation, each deferred relation column is populated
with the now-known peer database id; all other columns are untouched. -/
def initBwdRels (schema : List (String × PropType)) (peerDbId : Nat) :
    List (String × PropType) :=
  schema.map (completeCol peerDbId)

/-- The steps of `Session.create_db` (`session.py` lines 128-150) in
execution order. -/
inductive CreateDbEvent where
  | fwdInit
  | remoteCreate (payload : List (String × PropType))
  | bwdInit
deriving DecidableEq, Repr

/-- Model of `Session.create_db` for a schema: initialize forward
relations, send the creation payload with untargeted relation columns
dropped, and — only after creation, the database id now known — complete
the deferred columns.  Returns the event trace and the completed schema. -/
def createDb (schema : List (String × PropType)) (newDbId : Nat) :
    List CreateDbEvent × List (String × PropType) :=
  ([CreateDbEvent.fwdInit, CreateDbEvent.remoteCreate (schemaNoBackrels schema),
    CreateDbEvent.bwdInit],
   initBwdRels schema newDbId)

/-! Claim theorems. -/

/-- C1: for every date-typed formula result (`DateFormula`) and date-typed
rollup (`RollupDate`), the `value` projection is absent when the date
payload is absent, exactly the start instant when a start is present but
the end is absent, and the ordered `(start, end)` pair when both are
present. -/
theorem date_value_projection (s e : Instant) (fn : Option String) :
    DateFormula.value ⟨Option.none⟩ = DateValue.absent
    ∧ DateFormula.value ⟨Option.some ⟨s, Option.none⟩⟩ = DateValue.single s
    ∧ DateFormula.value ⟨Option.some ⟨s, Option.some e⟩⟩ = DateValue.pair s e
    ∧ RollupDate.value ⟨fn, Option.none⟩ = DateValue.absent
    ∧ RollupDate.value ⟨fn, Option.some ⟨s, Option.none⟩⟩ = DateValue.single s
    ∧ RollupDate.value ⟨fn, Option.some ⟨s, Option.some e⟩⟩ = DateValue.pair s e :=
  ⟨rfl, rfl, rfl, rfl, rfl, rfl⟩

/-- C2: `to_plain_text` returns `None` on the empty sequence (never the
empty string), and otherwise the in-order concatenation of each span's
plain-text rendering skipping falsy renderings — stated as equality with
`toPlainTextSpec`, the projection written from the spec's words. -/
theorem to_plain_text_correct (rt : RichText) :
    RichText.to_plain_text rt = toPlainTextSpec rt := by
  unfold RichText.to_plain_text toPlainTextSpec
  by_cases h : rt.isEmpty
  · simp [h]
  · simp only [h, if_false]
    have hfilter : rt.filter RichTextObject.truthy = rt := by
      simp [RichTextObject.truthy]
    rw [hfilter, joinStrings_filter_ne_empty]

/-- C10: `__str__` always returns a string, equal to `to_plain_text()` when
that projection is truthy and the empty string otherwise — i.e. it collapses
the `None`-vs-empty-string distinction into `getD ""`. -/
theorem str_collapses_absence (rt : RichText) :
    RichText.str rt = (RichText.to_plain_text rt).getD "" := by
  unfold RichText.str
  cases h : RichText.to_plain_text rt with
  | none => rfl
  | some s =>
    simp only [Option.getD_some]
    by_cases hs : s = ""
    · subst hs; rfl
    · simp [String.isEmpty_iff, hs]

/-- C9: `from_markdown` and `to_markdown` raise a distinct not-implemented
error on every input and never return a result. -/
theorem markdown_not_implemented (t : String) (rt : RichText) (r : RichText) (s : String) :
    RichText.from_markdown t = Except.error NotImplementedError.notImplemented
    ∧ RichText.to_markdown rt = Except.error NotImplementedError.notImplemented
    ∧ RichText.from_markdown t ≠ Except.ok r
    ∧ RichText.to_markdown rt ≠ Except.ok s :=
  ⟨rfl, rfl, fun h => Except.noConfusion h, fun h => Except.noConfusion h⟩

/-- C3: for every supported property-kind tag, decoding the tag's minimal
well-formed wire payload into its `PropertyValue` variant and re-encoding
yields a payload equal to the original under field-order-independent
comparison, modulo the server-assigned `id`; `minimalPayloads` covers
exactly the supported tags, and a payload carrying an `id` round-trips
under the same comparison. -/
theorem decode_encode_round_trip :
    minimalPayloads.map Prod.fst = supportedTags
    ∧ minimalPayloads.all (fun tp => roundTrips tp.2) = true
    ∧ roundTrips (Json.mkObj [("id", Json.str "prop-id"), ("type", Json.str "number"),
        ("number", Json.num (NumVal.int 3))]) = true :=
  ⟨rfl, rfl, rfl⟩

/-- A nested rollup-array payload also round-trips: the recursive decoding
of `RollupArray`'s contained property values is exercised. -/
example :
    roundTrips (Json.mkObj [("type", Json.str "rollup"),
      ("rollup", Json.mkObj [("type", Json.str "array"), ("function", Json.str "show_original"),
        ("array", Json.arr (JsonList.ofList
          [Json.mkObj [("type", Json.str "checkbox"), ("checkbox", Json.bool true)]]))])])
      = true :=
  rfl

/-- C4: decoding a payload whose `number` field is a wire integer yields
the integer-tagged value — distinct from every float-tagged value — so a
wire integer is never silently widened to floating point
(`Number.Config.smart_union`, `props.py` lines 46-47). -/
theorem number_preserves_int (n : Int) (lit : String) :
    Json.decodePV (numberPayload n)
      = Option.some (PropertyValue.number Option.none (Option.some (NumVal.int n)))
    ∧ Json.decodePV (numberPayload 3)
      = Option.some (PropertyValue.number Option.none (Option.some (NumVal.int 3)))
    ∧ NumVal.int n ≠ NumVal.float lit :=
  ⟨rfl, rfl, fun h => NumVal.noConfusion h⟩

/-- C5 counterexample: `Relation.build` does not set the tag-named field to
its argument.  Two distinct page lists — same ids, different titles — build
identical relation values, so the result holds the pages' object
references, not the argument itself; were the field set to the argument,
the two results would differ. -/
theorem relation_build_not_field_assignment :
    Relation.build [⟨"p1", "a"⟩] = Relation.build [⟨"p1", "b"⟩]
    ∧ (⟨"p1", "a"⟩ : Page) ≠ (⟨"p1", "b"⟩ : Page) :=
  ⟨rfl, by decide⟩

/-- C5 (amended): variants that inherit `PropertyValue.build` construct the
canonical variant with the tag-named field set to the argument itself
(shown for number, checkbox, url); the overriding `Date.build` and
`Relation.build` set the tag-named field to the wire-shaped value derived
from their native arguments — the `DateRange` of start/end, the pages'
object references — equivalently, they are the generic build applied to
that derived payload, not to the arguments themselves. -/
theorem build_constructs_canonical_variant (n : NumVal) (b : Bool) (s : String)
    (st : Instant) (e : Option Instant) (pages : List Page) :
    PropertyValue.build "number" (Json.num n)
        = Option.some (PropertyValue.number Option.none (Option.some n))
    ∧ PropertyValue.build "checkbox" (Json.bool b)
        = Option.some (PropertyValue.checkbox Option.none (Option.some b))
    ∧ PropertyValue.build "url" (Json.str s)
        = Option.some (PropertyValue.url Option.none (Option.some s))
    ∧ Date.build st e = PropertyValue.date Option.none (Option.some ⟨st, e⟩)
    ∧ PropertyValue.build "date" (encodeDateRange ⟨st, e⟩) = Option.some (Date.build st e)
    ∧ Relation.build pages
        = PropertyValue.relation Option.none (JsonList.ofList (pages.map ObjectReference.ofPage))
            false
    ∧ PropertyValue.build "relation" (Json.arr (JsonList.ofList (pages.map ObjectReference.ofPage)))
        = Option.some (Relation.build pages) := by
  refine ⟨rfl, rfl, rfl, rfl, ?_, rfl, rfl⟩
  cases e with
  | none => rfl
  | some x => rfl

/-- C6: constructing a new session while a different session instance is
active fails with an error raised before any network activity (zero
network-capable steps performed), never silently replacing the active
session; and requesting the active session when none exists raises an
error. -/
theorem session_second_construction_fails (active : Option Nat) (s inst : Nat)
    (auth envToken : Option String) (hact : active = Option.some s) (hne : s ≠ inst) :
    (∃ e, sessionInit active inst auth envToken = (Except.error e, 0))
    ∧ getActive Option.none = Except.error GetActiveError.noActiveSession := by
  subst hact
  refine ⟨?_, rfl⟩
  cases auth with
  | none =>
    cases envToken with
    | none => exact ⟨SessionInitError.noAuthToken, rfl⟩
    | some t =>
      exact ⟨SessionInitError.multipleSessions, by simp [sessionInit, initializeOnce, hne]⟩
  | some a =>
    exact ⟨SessionInitError.multipleSessions, by simp [sessionInit, initializeOnce, hne]⟩

/-- C6 witness: a concrete second construction (instance 1 while instance 0
is active, with a token supplied) and the no-active-session read. -/
theorem session_second_construction_fails_witness :
    (∃ e, sessionInit (Option.some 0) 1 (Option.some "tok") Option.none = (Except.error e, 0))
    ∧ getActive Option.none = Except.error GetActiveError.noActiveSession :=
  session_second_construction_fails (Option.some 0) 0 1 (Option.some "tok") Option.none rfl
    (by decide)

/-- C7: `create_db` drops exactly the untargeted relation columns from the
creation payload (targeted — including self-referencing — relations and all
other columns remain), performs the remote creation with that payload, and
only afterwards populates each deferred relation column with the now-known
database id, completing the schema. -/
theorem create_db_two_phase (schema : List (String × PropType)) (dbId : Nat)
    (n : String) (pt : PropType) :
    ((n, pt) ∈ schemaNoBackrels schema ↔ (n, pt) ∈ schema ∧ pt.isUntargetedRelation = false)
    ∧ (createDb schema dbId).1
        = [CreateDbEvent.fwdInit, CreateDbEvent.remoteCreate (schemaNoBackrels schema),
           CreateDbEvent.bwdInit]
    ∧ ((n, PropType.relation Option.none) ∈ schema →
        (n, PropType.relation (Option.some dbId)) ∈ (createDb schema dbId).2)
    ∧ ((n, pt) ∈ schema → pt.isUntargetedRelation = false →
        (n, pt) ∈ (createDb schema dbId).2) := by
  refine ⟨?_, rfl, ?_, ?_⟩
  · simp [schemaNoBackrels, List.mem_filter]
  · intro h
    have hmem := List.mem_map_of_mem (completeCol dbId) h
    simpa [createDb, initBwdRels, completeCol] using hmem
  · intro h hpt
    have hmem := List.mem_map_of_mem (completeCol dbId) h
    have hfix : completeCol dbId (n, pt) = (n, pt) := by
      cases pt with
      | relation target =>
        cases target with
        | none => simp [PropType.isUntargetedRelation] at hpt
        | some t => rfl
      | other k => rfl
    rw [hfix] at hmem
    simpa [createDb, initBwdRels] using hmem

/-- A concrete three-column schema: a title-like column, a relation whose
peer does not yet exist, and a relation already targeting database 5. -/
def demoSchema : List (String × PropType) :=
  [("Name", PropType.other "title"), ("Peer", PropType.relation Option.none),
   ("Self", PropType.relation (Option.some 5))]

/-- C7 witness: on the concrete schema, the deferred `Peer` column is
completed with the created database id 9 and the already-targeted `Self`
column survives both phases. -/
theorem create_db_two_phase_witness :
    ("Peer", PropType.relation (Option.some 9)) ∈ (createDb demoSchema 9).2
    ∧ ("Self", PropType.relation (Option.some 5)) ∈ (createDb demoSchema 9).2 :=
  ⟨(create_db_two_phase demoSchema 9 "Peer" (PropType.relation Option.none)).2.2.1
      (by decide),
   (create_db_two_phase demoSchema 9 "Self" (PropType.relation (Option.some 5))).2.2.2
      (by decide) (by decide)⟩

/-- C8: a user backed by a person payload has `is_person = true` and `email`
returns the person's email; a user backed by a bot payload has
`is_bot = true` and `email = None`; `email` is total, so reading it never
raises for either variant. -/
theorem user_email_classification (i : String) (n e : Option String) (i' : String)
    (n' : Option String) :
    User.is_person (UserObj.person i n e) = true
    ∧ User.email (UserObj.person i n e) = e
    ∧ User.is_bot (UserObj.bot i' n') = true
    ∧ User.email (UserObj.bot i' n') = Option.none :=
  ⟨rfl, rfl, rfl, rfl⟩

end UNotion
